import Mathlib

/-!
Verification of the natural-language design description of the
Chat-with-MySQL pipeline (`src/app.py`) against a shallow embedding of its
core functions.

Python strings are modelled as `List Char`; the Python functions
`sanitize_query`, `validate_query`, `get_response` and the error
classification of `get_response`'s `except` clause are translated directly
from the source.  The external collaborators (the completion service
behind the three LangChain chains, and the database behind `db.run` /
`db.get_table_info`) are modelled as function-valued parameters that can
return either a value or a raised Python exception (`Except PyErr`).
-/

namespace ChatMySQL

/-- A Python string, modelled as its list of characters. -/
abbrev Str := List Char

/-- The character list of a Lean string literal (embedding of Python string literals). -/
def chars (s : String) : Str := s.data

/-- The backtick character, written via its code point. -/
def btChar : Char := Char.ofNat 96

/-- Python `str.lstrip()`: drop leading whitespace. -/
def lstrip (s : Str) : Str := s.dropWhile Char.isWhitespace

/-- Python `str.rstrip()`: drop trailing whitespace. -/
def rstrip (s : Str) : Str := s.rdropWhile Char.isWhitespace

/-- Python `str.strip()`: drop leading and trailing whitespace. -/
def pyStrip (s : Str) : Str := rstrip (lstrip s)

/-- Python `str.upper()`. -/
def pyUpper (s : Str) : Str := s.map Char.toUpper

/-- Python `str.lower()`. -/
def pyLower (s : Str) : Str := s.map Char.toLower

/-- Python substring test `needle in hay`. -/
def containsSub (hay needle : Str) : Bool :=
  (List.range (hay.length + 1)).any (fun i => needle.isPrefixOf (hay.drop i))

/-- The tuple `("SELECT", "INSERT", "UPDATE", "DELETE")` of `app.py`. -/
def acceptedVerbs : List Str :=
  [chars "SELECT", chars "INSERT", chars "UPDATE", chars "DELETE"]

/-- Python `q.strip().upper().startswith(("SELECT", "INSERT", "UPDATE", "DELETE"))`,
the whitelist check used twice inside `validate_query`. -/
def startsWithAccepted (q : Str) : Bool :=
  acceptedVerbs.any (fun v => v.isPrefixOf (pyUpper (pyStrip q)))

/-- One iteration of the fence-stripping loop of `sanitize_query`:
`if query.startswith(pfx): query = query[len(pfx):].strip()`. -/
def stripFenceOpen (pfx q : Str) : Str :=
  if pfx.isPrefixOf q then pyStrip (q.drop pfx.length) else q

/-- The closing-fence step of `sanitize_query`:
if the query ends with the three-backtick marker, drop the last three
characters and strip again. -/
def stripFenceClose (q : Str) : Str :=
  if (chars "```").isSuffixOf q then pyStrip (q.take (q.length - 3)) else q

/-- `sanitize_query` of `app.py`: strip, then the loop over the two fence
markers (language-tagged first, bare marker second), then the closing fence. -/
def sanitize_query (query : Str) : Str :=
  stripFenceClose (stripFenceOpen (chars "```") (stripFenceOpen (chars "```sql") (pyStrip query)))

/- ### Generic facts about the string helpers -/

theorem dropWhile_fix_of_pre {p : Char → Bool} {l l' : Str}
    (h : List.dropWhile p l = l) (hp : l' <+: l) : List.dropWhile p l' = l' := by
  cases l' with
  | nil => rfl
  | cons a t =>
    obtain ⟨r, rfl⟩ := hp
    by_cases ha : p a = true
    · exfalso
      rw [List.cons_append, List.dropWhile_cons, if_pos ha] at h
      have hlen := (List.dropWhile_suffix p (l := t ++ r)).length_le
      rw [h] at hlen
      simp only [List.length_cons] at hlen
      omega
    · rw [List.dropWhile_cons, if_neg ha]

theorem pyStrip_idem (s : Str) : pyStrip (pyStrip s) = pyStrip s := by
  unfold pyStrip
  have h1 : List.dropWhile Char.isWhitespace (lstrip s) = lstrip s :=
    List.dropWhile_idempotent _ _
  have h2 : lstrip (rstrip (lstrip s)) = rstrip (lstrip s) :=
    dropWhile_fix_of_pre h1 ( List.rdropWhile_prefix _ _)
  rw [h2]
  exact List.rdropWhile_idempotent _ _

theorem stripFenceOpen_of_not {pfx q : Str} (h : pfx.isPrefixOf q = false) :
    stripFenceOpen pfx q = q := by
  unfold stripFenceOpen
  rw [h]
  simp

theorem stripFenceOpen_of {pfx q : Str} (h : pfx.isPrefixOf q = true) :
    stripFenceOpen pfx q = pyStrip (q.drop pfx.length) := by
  unfold stripFenceOpen
  rw [h]
  simp

theorem stripFenceClose_of_not {q : Str} (h : (chars "```").isSuffixOf q = false) :
    stripFenceClose q = q := by
  unfold stripFenceClose
  rw [h]
  simp

theorem stripFenceClose_of {q : Str} (h : (chars "```").isSuffixOf q = true) :
    stripFenceClose q = pyStrip (q.take (q.length - 3)) := by
  unfold stripFenceClose
  rw [h]
  simp

theorem pyStrip_stripFenceOpen (pfx q : Str) (h : pyStrip q = q) :
    pyStrip (stripFenceOpen pfx q) = stripFenceOpen pfx q := by
  unfold stripFenceOpen
  split
  · exact pyStrip_idem _
  · exact h

theorem pyStrip_stripFenceClose (q : Str) (h : pyStrip q = q) :
    pyStrip (stripFenceClose q) = stripFenceClose q := by
  unfold stripFenceClose
  split
  · exact pyStrip_idem _
  · exact h

/-- The output of the sanitizer carries no leading or trailing whitespace. -/
theorem sanitize_query_stripped (x : Str) :
    pyStrip (sanitize_query x) = sanitize_query x := by
  unfold sanitize_query
  apply pyStrip_stripFenceClose
  apply pyStrip_stripFenceOpen
  apply pyStrip_stripFenceOpen
  exact pyStrip_idem x

/-- A whitespace-and-fence-fixed string passes through `sanitize_query` unchanged. -/
theorem sanitize_eq_self (s : Str) (hstrip : pyStrip s = s)
    (h1 : (chars "```").isPrefixOf s = false)
    (h2 : (chars "```").isSuffixOf s = false) :
    sanitize_query s = s := by
  have hsql : (chars "```sql").isPrefixOf s = false := by
    by_contra hc
    rw [Bool.not_eq_false, List.isPrefixOf_iff_prefix] at hc
    have h3 : (chars "```") <+: s := List.IsPrefix.trans (by decide) hc
    rw [← List.isPrefixOf_iff_prefix] at h3
    rw [h3] at h1
    cases h1
  unfold sanitize_query
  rw [hstrip, stripFenceOpen_of_not hsql, stripFenceOpen_of_not h1, stripFenceClose_of_not h2]

theorem dropWhile_append_pos {p : Char → Bool} {u : Str} (v : Str)
    (h : List.dropWhile p u ≠ []) :
    List.dropWhile p (u ++ v) = List.dropWhile p u ++ v := by
  induction u with
  | nil => exact absurd rfl h
  | cons a t ih =>
    rw [List.cons_append, List.dropWhile_cons, List.dropWhile_cons]
    by_cases ha : p a = true
    · simp only [if_pos ha]
      rw [List.dropWhile_cons, if_pos ha] at h
      exact ih h
    · simp only [if_neg ha, List.cons_append]

theorem dropWhile_append_nil {p : Char → Bool} {u : Str} (v : Str)
    (h : List.dropWhile p u = []) :
    List.dropWhile p (u ++ v) = List.dropWhile p v := by
  induction u with
  | nil => rfl
  | cons a t ih =>
    rw [List.cons_append, List.dropWhile_cons]
    rw [List.dropWhile_cons] at h
    by_cases ha : p a = true
    · rw [if_pos ha]
      rw [if_pos ha] at h
      exact ih h
    · rw [if_neg ha] at h
      cases h

theorem lstrip_cons_of_not {a : Char} {l : Str} (h : a.isWhitespace = false) :
    lstrip (a :: l) = a :: l := by
  unfold lstrip
  rw [List.dropWhile_cons, if_neg (by rw [h]; simp)]

theorem rstrip_append_fence (a : Str) :
    rstrip (a ++ chars "```") = a ++ chars "```" := by
  have h : a ++ chars "```" = (a ++ chars "``") ++ [btChar] := by
    rw [List.append_assoc]
    exact congrArg (fun t => a ++ t) (by decide)
  rw [h]
  exact List.rdropWhile_concat_neg _ _ _ (by decide)

theorem take_fence (u : Str) :
    (u ++ chars "```").take ((u ++ chars "```").length - 3) = u := by
  have h : (u ++ chars "```").length - 3 = u.length := by
    rw [List.length_append, (by decide : (chars "```").length = 3)]
    omega
  rw [h]
  exact List.take_left u _

theorem lstrip_mem_subset {b : Str} : lstrip b ⊆ b :=
  (List.dropWhile_suffix _).subset

theorem pyStrip_mem_subset {b : Str} : pyStrip b ⊆ b := by
  intro a ha
  exact lstrip_mem_subset (( List.rdropWhile_prefix _ (lstrip b)).subset ha)

theorem pyStrip_of_lstrip_nil {b : Str} (h : lstrip b = []) : pyStrip b = [] := by
  unfold pyStrip
  rw [h]
  rfl

theorem lstrip_lstrip (b : Str) : lstrip (lstrip b) = lstrip b :=
  List.dropWhile_idempotent _ _

/-- The strip of the fenced body: with a whitespace-only body only the closing
marker remains, otherwise the left-stripped body followed by the marker. -/
theorem pyStrip_body_fence_nil {b : Str} (h : lstrip b = []) :
    pyStrip (b ++ chars "```") = chars "```" := by
  unfold pyStrip lstrip
  rw [dropWhile_append_nil _ h]
  decide

theorem pyStrip_body_fence_cons {b : Str} (h : lstrip b ≠ []) :
    pyStrip (b ++ chars "```") = lstrip b ++ chars "```" := by
  unfold pyStrip
  have h1 : lstrip (b ++ chars "```") = lstrip b ++ chars "```" :=
    dropWhile_append_pos _ h
  rw [h1]
  exact rstrip_append_fence _

theorem head_some_of_pre_cons {u : Str} {a : Char} {t : Str}
    (h : u <+: a :: t) (hne : u ≠ []) : u.head? = some a := by
  cases u with
  | nil => exact absurd rfl hne
  | cons x xs =>
    obtain ⟨r, hr⟩ := h
    rw [List.cons_append] at hr
    injection hr with h1 _
    rw [h1]
    rfl

theorem fence_open_not_pre_body {b : Str} (hbt : btChar ∉ b) {a : Char} {t : Str}
    (hB : lstrip b = a :: t) :
    (chars "```").isPrefixOf (lstrip b ++ chars "```") = false := by
  by_contra hc
  rw [Bool.not_eq_false, List.isPrefixOf_iff_prefix, hB, List.cons_append] at hc
  have h5 := head_some_of_pre_cons hc (by decide)
  have h6 : (chars "```").head? = some btChar := by decide
  rw [h6] at h5
  have ha : a = btChar := (Option.some.inj h5).symm
  have hmem : a ∈ b := lstrip_mem_subset (hB ▸ List.mem_cons_self a t)
  exact hbt (ha ▸ hmem)

/-- After a whitespace-free fenced body reaches the bare-marker loop step and
the closing-fence step, the result is the stripped body. -/
theorem fence_tail_sql {b : Str} (hbt : btChar ∉ b) :
    stripFenceClose (stripFenceOpen (chars "```") (pyStrip (b ++ chars "```"))) = pyStrip b := by
  cases hB : lstrip b with
  | nil =>
    rw [pyStrip_body_fence_nil hB, pyStrip_of_lstrip_nil hB]
    decide
  | cons a t =>
    rw [pyStrip_body_fence_cons (by rw [hB]; exact List.cons_ne_nil a t)]
    rw [stripFenceOpen_of_not (fence_open_not_pre_body hbt hB)]
    rw [stripFenceClose_of (by rw [ List.isSuffixOf_iff_suffix]; exact List.suffix_append _ _)]
    rw [take_fence]
    unfold pyStrip
    rw [lstrip_lstrip]

theorem fence_tail_plain {b : Str} :
    stripFenceClose (pyStrip (b ++ chars "```")) = pyStrip b := by
  cases hB : lstrip b with
  | nil =>
    rw [pyStrip_body_fence_nil hB, pyStrip_of_lstrip_nil hB]
    decide
  | cons a t =>
    rw [pyStrip_body_fence_cons (by rw [hB]; exact List.cons_ne_nil a t)]
    rw [stripFenceClose_of (by rw [ List.isSuffixOf_iff_suffix]; exact List.suffix_append _ _)]
    rw [take_fence]
    unfold pyStrip
    rw [lstrip_lstrip]

theorem pyStrip_whole_sql (b : Str) :
    pyStrip (chars "```sql" ++ b ++ chars "```") = chars "```sql" ++ b ++ chars "```" := by
  unfold pyStrip
  have he : (chars "```sql" ++ b) ++ chars "```" =
      btChar :: ((chars "``sql" ++ b) ++ chars "```") := rfl
  rw [he, lstrip_cons_of_not (by decide), ← he]
  exact rstrip_append_fence _

theorem pyStrip_whole_plain (b : Str) :
    pyStrip (chars "```" ++ b ++ chars "```") = chars "```" ++ b ++ chars "```" := by
  unfold pyStrip
  have he : (chars "```" ++ b) ++ chars "```" =
      btChar :: ((chars "``" ++ b) ++ chars "```") := rfl
  rw [he, lstrip_cons_of_not (by decide), ← he]
  exact rstrip_append_fence _

/-- A fenced body wrapped as three-backticks-sql ... three-backticks sanitizes
to the stripped body, provided the body itself contains no backtick. -/
theorem sanitize_fenced_sql (b : Str) (hbt : btChar ∉ b) :
    sanitize_query (chars "```sql" ++ b ++ chars "```") = pyStrip b := by
  have hpre : (chars "```sql").isPrefixOf ((chars "```sql" ++ b) ++ chars "```") = true := by
    rw [ List.isPrefixOf_iff_prefix, List.append_assoc]
    exact List.prefix_append _ _
  have hdrop : ((chars "```sql" ++ b) ++ chars "```").drop (chars "```sql").length
      = b ++ chars "```" := by
    rw [List.append_assoc]
    exact List.drop_left _ _
  unfold sanitize_query
  rw [pyStrip_whole_sql, stripFenceOpen_of hpre, hdrop]
  exact fence_tail_sql hbt

theorem not_sql_pre_body {b : Str} (hsql : ¬ chars "sql" <+: b) :
    ¬ chars "sql" <+: (b ++ chars "```") := by
  intro h
  obtain ⟨r, hr⟩ := h
  cases b with
  | nil =>
    rw [List.nil_append] at hr
    injection hr with h1 _
    exact absurd h1 (by decide)
  | cons x b1 =>
    rw [List.cons_append] at hr
    cases b1 with
    | nil =>
      injection hr with h1 hr2
      rw [List.nil_append] at hr2
      injection hr2 with h2 _
      exact absurd h2 (by decide)
    | cons y b2 =>
      rw [List.cons_append] at hr
      cases b2 with
      | nil =>
        injection hr with h1 hr2
        injection hr2 with h2 hr3
        rw [List.nil_append] at hr3
        injection hr3 with h3 _
        exact absurd h3 (by decide)
      | cons z b3 =>
        rw [List.cons_append] at hr
        injection hr with h1 hr2
        injection hr2 with h2 hr3
        injection hr3 with h3 _
        apply hsql
        refine ⟨b3, ?_⟩
        show Char.ofNat 115 :: Char.ofNat 113 :: Char.ofNat 108 :: b3 = x :: y :: z :: b3
        rw [show Char.ofNat 115 = x from h1 ▸ (by decide),
          show Char.ofNat 113 = y from h2 ▸ (by decide),
          show Char.ofNat 108 = z from h3 ▸ (by decide)]

/-- A fenced body wrapped in bare three-backtick markers sanitizes to the
stripped body, provided the body contains no backtick and does not begin
with the letters of the language tag. -/
theorem sanitize_fenced_plain (b : Str)
    (hsql : ¬ chars "sql" <+: b) :
    sanitize_query (chars "```" ++ b ++ chars "```") = pyStrip b := by
  have hnsql : (chars "```sql").isPrefixOf ((chars "```" ++ b) ++ chars "```") = false := by
    by_contra hc
    rw [Bool.not_eq_false, List.isPrefixOf_iff_prefix, List.append_assoc] at hc
    rw [show chars "```sql" = chars "```" ++ chars "sql" from by decide] at hc
    rw [List.prefix_append_right_inj] at hc
    exact not_sql_pre_body hsql hc
  have hpre : (chars "```").isPrefixOf ((chars "```" ++ b) ++ chars "```") = true := by
    rw [ List.isPrefixOf_iff_prefix, List.append_assoc]
    exact List.prefix_append _ _
  have hdrop : ((chars "```" ++ b) ++ chars "```").drop (chars "```").length
      = b ++ chars "```" := by
    rw [List.append_assoc]
    exact List.drop_left _ _
  unfold sanitize_query
  rw [pyStrip_whole_plain, stripFenceOpen_of_not hnsql, stripFenceOpen_of hpre, hdrop]
  exact fence_tail_plain

/-- A backtick-free string has no fence marker at either end. -/
theorem fencefree_of_no_bt {s : Str} (h : btChar ∉ s) :
    (chars "```").isPrefixOf s = false ∧ (chars "```").isSuffixOf s = false := by
  constructor
  · by_contra hc
    rw [Bool.not_eq_false, List.isPrefixOf_iff_prefix] at hc
    exact h (hc.subset (by decide))
  · by_contra hc
    rw [Bool.not_eq_false, List.isSuffixOf_iff_suffix] at hc
    exact h (hc.subset (by decide))

theorem sanitize_query_pyStrip (x : Str) :
    sanitize_query (pyStrip x) = sanitize_query x := by
  unfold sanitize_query
  rw [pyStrip_idem]

/-- A backtick-free input is only stripped of whitespace. -/
theorem sanitize_no_bt (x : Str) (hbt : btChar ∉ x) :
    sanitize_query x = pyStrip x := by
  have hbt2 : btChar ∉ pyStrip x := fun hm => hbt (pyStrip_mem_subset hm)
  have hff := fencefree_of_no_bt hbt2
  rw [← sanitize_query_pyStrip]
  exact sanitize_eq_self _ (pyStrip_idem x) hff.1 hff.2

/- ### Claim C3: idempotence of the sanitizer -/

/-- Claim C3, counterexample: on an input with stacked fence markers (six
backticks before an x) one sanitizer pass still leaves a fence marker, so a
second pass strips more and idempotence fails. -/
theorem c3_counterexample :
    sanitize_query (sanitize_query (chars "``````x")) ≠ sanitize_query (chars "``````x") := by
  decide

/-- Claim C3 (amended): `sanitize_query` is idempotent on every input whose
sanitized output neither starts nor ends with a fence marker — in particular
on all unfenced inputs and on inputs carrying a single enclosing fence pair;
inputs with stacked fence markers violate idempotence. -/
theorem c3_sanitize_idem_of_fencefree (x : Str)
    (h1 : (chars "```").isPrefixOf (sanitize_query x) = false)
    (h2 : (chars "```").isSuffixOf (sanitize_query x) = false) :
    sanitize_query (sanitize_query x) = sanitize_query x :=
  sanitize_eq_self _ (sanitize_query_stripped x) h1 h2

/-- Claim C3, witness: a concrete singly-fenced input on which the amended
idempotence theorem applies. -/
theorem c3_witness :
    sanitize_query (sanitize_query (chars "``` SELECT 1 ```")) =
      sanitize_query (chars "``` SELECT 1 ```") :=
  c3_sanitize_idem_of_fencefree _ (by decide) (by decide)

/- ### Claim C4: shape of the sanitizer output -/

/-- Claim C4, counterexample: inputs with stacked fence markers sanitize to
outputs that still begin (respectively end) with a fence marker, refuting the
unconditional fence-free guarantee. -/
theorem c4_counterexample :
    (chars "```").isPrefixOf (sanitize_query (chars "``````x")) = true ∧
    (chars "```").isSuffixOf (sanitize_query (chars "x``````")) = true := by
  decide

/-- Claim C4 (amended): every sanitizer output is free of leading and trailing
whitespace; the fence-free part of the claim holds for backtick-free inputs and
for inputs consisting of one enclosing fence pair (with or without the sql
language tag) around a backtick-free body, whose sanitized form is the
stripped, fence-free body; inputs with stacked fence markers can retain one
marker (see the counterexample). -/
theorem c4_sanitize_output_shape :
    (∀ x, pyStrip (sanitize_query x) = sanitize_query x) ∧
    (∀ x, btChar ∉ x → sanitize_query x = pyStrip x) ∧
    (∀ b, btChar ∉ b →
      sanitize_query (chars "```sql" ++ b ++ chars "```") = pyStrip b) ∧
    (∀ b, ¬ chars "sql" <+: b →
      sanitize_query (chars "```" ++ b ++ chars "```") = pyStrip b) ∧
    (∀ b, btChar ∉ b →
      (chars "```").isPrefixOf (pyStrip b) = false ∧
      (chars "```").isSuffixOf (pyStrip b) = false) := by
  refine ⟨sanitize_query_stripped, sanitize_no_bt, sanitize_fenced_sql,
    sanitize_fenced_plain, ?_⟩
  intro b hb
  exact fencefree_of_no_bt (fun hm => hb (pyStrip_mem_subset hm))

/-- Claim C4, witness: a concrete fenced generation output is sanitized to the
bare statement. -/
theorem c4_witness :
    sanitize_query (chars "```sql SELECT 1  ```") = chars "SELECT 1" := by
  have h := c4_sanitize_output_shape.2.2.1 (chars " SELECT 1  ") (by decide)
  rw [show pyStrip (chars " SELECT 1  ") = chars "SELECT 1" from by decide] at h
  exact h

/- ### The pipeline data model -/

/-- A raised Python exception, as observed by the handler in `get_response`:
its type name (`type(e).__name__`) and its text (`str(e)`). -/
structure PyErr where
  typeName : Str
  msg : Str

/-- The session database object: `get_table_info` is indexed by the number of
schema fetches already made during the current turn (the code calls it afresh
at every use site), `run` either returns the result text or raises. -/
structure DB where
  get_table_info : Nat → Str
  run : Str → Except PyErr Str

/-- The rendered input of the SQL-generation chain of `get_sql_chain`. -/
structure GenPrompt where
  question : Str
  schema : Str
  chat_history : List Str

/-- The rendered input of the validation chain inside `validate_query`. -/
structure ValPrompt where
  schema : Str
  query : Str

/-- The rendered input of the response chain inside `get_response`. -/
structure SynthPrompt where
  question : Str
  chat_history : List Str
  query : Str
  response : Str
  schema : Str

/-- One `debug_entry` of `get_response`, appended to
`st.session_state.query_history`. -/
structure Attempt where
  timestamp : Str
  question : Str
  generated_query : Str
  validated_query : Str
  results : Str

/-- Result of `validate_query`, instrumented with the prompt that was
submitted to the completion service (`none` when the chain was never
invoked). -/
structure ValOut where
  result : Str
  sent : Option ValPrompt

/-- `validate_query` of `app.py`.  `corr` is the completion service behind the
validation chain; `fetchIdx` is the number of schema fetches already made this
turn, so the chain's schema lambda reads `db.get_table_info fetchIdx`.  The
guard returns the query unchanged without invoking the chain; a raised chain
exception is caught and the original query returned; the chain output is
accepted only when it does not contain the marker word and passes the
verb-whitelist check. -/
def validate_query (db : DB) (fetchIdx : Nat)
    (corr : ValPrompt → Except PyErr Str) (query : Str) : ValOut :=
  if startsWithAccepted query then
    match corr ⟨db.get_table_info fetchIdx, query⟩ with
    | .error _ => ⟨query, some ⟨db.get_table_info fetchIdx, query⟩⟩
    | .ok validated =>
      if containsSub (pyLower validated) (chars "valid")
          || !(startsWithAccepted validated) then
        ⟨query, some ⟨db.get_table_info fetchIdx, query⟩⟩
      else ⟨validated, some ⟨db.get_table_info fetchIdx, query⟩⟩
  else ⟨query, none⟩

/-- The `except` clause of `get_response`: the fixed mapping from a raised
failure to the user-facing message. -/
def classify_error (e : PyErr) : Str :=
  if containsSub e.typeName (chars "ProgrammingError") then
    chars "Database error: " ++ e.msg ++ chars ". Please verify your query syntax."
  else if containsSub e.typeName (chars "ConnectionError") then
    chars "Failed to connect to database. Please check your connection settings."
  else if containsSub e.msg (chars "EmptyResult") then
    chars "No results found matching your criteria."
  else
    chars "Sorry, I encountered an unexpected error. The technical details have been logged."

/-- Instrumentation of one turn: the prompts actually rendered and sent, the
raw generation output, and the query given to `db.run` with its outcome. -/
structure Trace where
  genPrompt : Option GenPrompt
  genOutput : Option Str
  valSent : Option ValPrompt
  executed : Option (Str × Except PyErr Str)
  synthPrompt : Option SynthPrompt

/-- The observable outcome of one `get_response` turn: the returned text, the
session attempt log after the turn, and the trace. -/
structure TurnOut where
  answer : Str
  query_history : List Attempt
  trace : Trace

/-- The part of `get_response` following a successful execution: append the
`debug_entry` to the session log, render the synthesis prompt (with a fresh
schema fetch: number 2 when the validation chain ran and already fetched
number 1, and number 1 otherwise) and invoke the response chain. -/
def afterRun (db : DB) (synth : SynthPrompt → Except PyErr Str)
    (now user_query : Str) (chat_history : List Str) (query_history : List Attempt)
    (gp : GenPrompt) (raw : Str) (v : ValOut) (results : Str) : TurnOut :=
  let entry : Attempt := ⟨now, user_query, sanitize_query raw, v.result, results⟩
  let sp : SynthPrompt := ⟨user_query, chat_history, v.result, results,
    db.get_table_info (if v.sent.isSome then 2 else 1)⟩
  match synth sp with
  | .error e =>
      ⟨classify_error e, query_history ++ [entry],
        ⟨some gp, some raw, v.sent, some (v.result, .ok results), some sp⟩⟩
  | .ok final =>
      ⟨final, query_history ++ [entry],
        ⟨some gp, some raw, v.sent, some (v.result, .ok results), some sp⟩⟩

/-- The part of `get_response` following a successful generation-chain call:
sanitize, validate, execute, then continue with `afterRun`. -/
def afterGenerate (db : DB) (corr : ValPrompt → Except PyErr Str)
    (synth : SynthPrompt → Except PyErr Str) (now user_query : Str)
    (chat_history : List Str) (query_history : List Attempt)
    (gp : GenPrompt) (raw : Str) : TurnOut :=
  let v := validate_query db 1 corr (sanitize_query raw)
  match db.run v.result with
  | .error e =>
      ⟨classify_error e, query_history,
        ⟨some gp, some raw, v.sent, some (v.result, .error e), none⟩⟩
  | .ok results =>
      afterRun db synth now user_query chat_history query_history gp raw v results

/-- `get_response` of `app.py`.  `gen`, `corr` and `synth` are the completion
service behind the three chains; `now` is the turn's timestamp; the whole body
sits in a `try` whose `except` clause is `classify_error`. -/
def get_response (db : DB) (gen : GenPrompt → Except PyErr Str)
    (corr : ValPrompt → Except PyErr Str) (synth : SynthPrompt → Except PyErr Str)
    (now user_query : Str) (chat_history : List Str)
    (query_history : List Attempt) : TurnOut :=
  match gen ⟨user_query, db.get_table_info 0, chat_history⟩ with
  | .error e =>
      ⟨classify_error e, query_history,
        ⟨some ⟨user_query, db.get_table_info 0, chat_history⟩, none, none, none, none⟩⟩
  | .ok raw =>
      afterGenerate db corr synth now user_query chat_history query_history
        ⟨user_query, db.get_table_info 0, chat_history⟩ raw

/- ### Behaviour of the validator -/

theorem validate_query_no_verb (db : DB) (i : Nat)
    (corr : ValPrompt → Except PyErr Str) (q : Str)
    (h : startsWithAccepted q = false) :
    validate_query db i corr q = ⟨q, none⟩ := by
  unfold validate_query
  rw [h]
  simp

theorem validate_query_corr_error (db : DB) (i : Nat)
    (corr : ValPrompt → Except PyErr Str) (q : Str) (e : PyErr)
    (h : startsWithAccepted q = true)
    (hc : corr ⟨db.get_table_info i, q⟩ = .error e) :
    validate_query db i corr q = ⟨q, some ⟨db.get_table_info i, q⟩⟩ := by
  unfold validate_query
  rw [h, hc]
  simp

theorem validate_query_corr_ok (db : DB) (i : Nat)
    (corr : ValPrompt → Except PyErr Str) (q v : Str)
    (h : startsWithAccepted q = true)
    (hc : corr ⟨db.get_table_info i, q⟩ = .ok v) :
    validate_query db i corr q =
      if containsSub (pyLower v) (chars "valid") || !(startsWithAccepted v) then
        ⟨q, some ⟨db.get_table_info i, q⟩⟩
      else ⟨v, some ⟨db.get_table_info i, q⟩⟩ := by
  unfold validate_query
  rw [h, hc]
  simp

theorem validate_query_sent_shape (db : DB) (i : Nat)
    (corr : ValPrompt → Except PyErr Str) (q : Str) :
    (validate_query db i corr q).sent = none ∨
    (validate_query db i corr q).sent = some ⟨db.get_table_info i, q⟩ := by
  by_cases h : startsWithAccepted q = true
  · cases hc : corr ⟨db.get_table_info i, q⟩ with
    | error e => rw [validate_query_corr_error db i corr q e h hc]; exact Or.inr rfl
    | ok v =>
      rw [validate_query_corr_ok db i corr q v h hc]
      by_cases hrej : (containsSub (pyLower v) (chars "valid") || !(startsWithAccepted v)) = true
      · rw [if_pos hrej]; exact Or.inr rfl
      · rw [if_neg hrej]; exact Or.inr rfl
  · rw [validate_query_no_verb db i corr q (by simpa using h)]
    exact Or.inl rfl

/- ### Claim C5: the guard clause -/

/-- Claim C5 (confirmed): a candidate without an accepted verb is returned
unchanged and the validation chain (the completion service) is never invoked
(`sent = none` records that no prompt was submitted). -/
theorem c5_guard_returns_unchanged (db : DB) (i : Nat)
    (corr : ValPrompt → Except PyErr Str) (q : Str)
    (h : startsWithAccepted q = false) :
    validate_query db i corr q = ⟨q, none⟩ :=
  validate_query_no_verb db i corr q h

/-- Claim C5, witness: the guard fires on a concrete DROP statement. -/
theorem c5_witness :
    validate_query ⟨fun _ => chars "S", fun _ => .ok (chars "r")⟩ 1
      (fun _ => .ok (chars "SELECT 2")) (chars "DROP TABLE students") =
      ⟨chars "DROP TABLE students", none⟩ :=
  c5_guard_returns_unchanged _ 1 _ _ (by decide)

/- ### Claim C6: the corrector acceptance rule -/

/-- Claim C6 (confirmed): with the guard passed and the corrector returning
`v`, the corrector output is used only when it is free of the marker word
"valid" (checked on the lowercased output) and passes the verb whitelist;
whenever either condition fails the original candidate is returned. -/
theorem c6_corrector_acceptance (db : DB) (i : Nat)
    (corr : ValPrompt → Except PyErr Str) (q v : Str)
    (hq : startsWithAccepted q = true)
    (hc : corr ⟨db.get_table_info i, q⟩ = .ok v) :
    ((containsSub (pyLower v) (chars "valid") = true ∨ startsWithAccepted v = false) →
      (validate_query db i corr q).result = q) ∧
    (containsSub (pyLower v) (chars "valid") = false → startsWithAccepted v = true →
      (validate_query db i corr q).result = v) := by
  rw [validate_query_corr_ok db i corr q v hq hc]
  constructor
  · intro h
    have hcond : (containsSub (pyLower v) (chars "valid") || !(startsWithAccepted v)) = true := by
      rcases h with h | h <;> simp [h]
    rw [if_pos hcond]
  · intro h1 h2
    have hcond : (containsSub (pyLower v) (chars "valid") || !(startsWithAccepted v)) = false := by
      simp [h1, h2]
    rw [if_neg (by simp [hcond])]

/-- Claim C6, witness: a corrector answer containing the marker word is
rejected and the original candidate kept. -/
theorem c6_witness :
    (validate_query ⟨fun _ => chars "S", fun _ => .ok (chars "r")⟩ 1
      (fun _ => .ok (chars "The query is valid")) (chars "SELECT 1")).result =
      chars "SELECT 1" :=
  (c6_corrector_acceptance _ 1 _ _ _ (by decide) rfl).1 (Or.inl (by decide))

/- ### Claim C7: validation failures are absorbed -/

/-- Claim C7 (confirmed): if the validation chain raises, the exception is
caught inside `validate_query` and the original candidate is returned, for
every candidate. -/
theorem c7_validation_error_absorbed (db : DB) (i : Nat)
    (corr : ValPrompt → Except PyErr Str) (q : Str) (e : PyErr)
    (hc : corr ⟨db.get_table_info i, q⟩ = .error e) :
    (validate_query db i corr q).result = q := by
  by_cases h : startsWithAccepted q = true
  · rw [validate_query_corr_error db i corr q e h hc]
  · rw [validate_query_no_verb db i corr q (by simpa using h)]

/-- Claim C7, witness: a concrete raising corrector is absorbed. -/
theorem c7_witness :
    (validate_query ⟨fun _ => chars "S", fun _ => .ok (chars "r")⟩ 1
      (fun _ => .error ⟨chars "Timeout", chars "rate limited"⟩)
      (chars "SELECT 1")).result = chars "SELECT 1" :=
  c7_validation_error_absorbed _ 1 _ _ ⟨chars "Timeout", chars "rate limited"⟩ rfl

/- ### Claim C10: the validator preserves the accepted-verb property -/

/-- Claim C10 (confirmed): when the input query starts with an accepted verb,
so does the validator's result, on every path (guard, raised exception,
rejected correction, accepted correction). -/
theorem c10_validate_preserves_verb (db : DB) (i : Nat)
    (corr : ValPrompt → Except PyErr Str) (q : Str)
    (h : startsWithAccepted q = true) :
    startsWithAccepted (validate_query db i corr q).result = true := by
  cases hc : corr ⟨db.get_table_info i, q⟩ with
  | error e => rw [validate_query_corr_error db i corr q e h hc]; exact h
  | ok v =>
    rw [validate_query_corr_ok db i corr q v h hc]
    by_cases hrej : (containsSub (pyLower v) (chars "valid") || !(startsWithAccepted v)) = true
    · rw [if_pos hrej]; exact h
    · rw [if_neg hrej]
      have h2 := Bool.eq_false_iff.mpr hrej
      simp only [Bool.or_eq_false_iff] at h2
      simpa using h2.2

/-- Claim C10, witness: verb preservation on a concrete accepted correction. -/
theorem c10_witness :
    startsWithAccepted (validate_query ⟨fun _ => chars "S", fun _ => .ok (chars "r")⟩ 1
      (fun _ => .ok (chars "SELECT name FROM students"))
      (chars "SELECT nm FROM students")).result = true :=
  c10_validate_preserves_verb _ 1 _ _ (by decide)

/- ### Step lemmas for the turn pipeline -/

theorem get_response_gen_error (db : DB) (gen : GenPrompt → Except PyErr Str)
    (corr : ValPrompt → Except PyErr Str) (synth : SynthPrompt → Except PyErr Str)
    (now uq : Str) (ch : List Str) (qh : List Attempt) (e : PyErr)
    (hg : gen ⟨uq, db.get_table_info 0, ch⟩ = .error e) :
    get_response db gen corr synth now uq ch qh =
      ⟨classify_error e, qh,
        ⟨some ⟨uq, db.get_table_info 0, ch⟩, none, none, none, none⟩⟩ := by
  unfold get_response
  rw [hg]

theorem get_response_gen_ok (db : DB) (gen : GenPrompt → Except PyErr Str)
    (corr : ValPrompt → Except PyErr Str) (synth : SynthPrompt → Except PyErr Str)
    (now uq : Str) (ch : List Str) (qh : List Attempt) (raw : Str)
    (hg : gen ⟨uq, db.get_table_info 0, ch⟩ = .ok raw) :
    get_response db gen corr synth now uq ch qh =
      afterGenerate db corr synth now uq ch qh ⟨uq, db.get_table_info 0, ch⟩ raw := by
  unfold get_response
  rw [hg]

theorem afterGenerate_run_error (db : DB) (corr : ValPrompt → Except PyErr Str)
    (synth : SynthPrompt → Except PyErr Str) (now uq : Str) (ch : List Str)
    (qh : List Attempt) (gp : GenPrompt) (raw : Str) (v : ValOut) (e : PyErr)
    (hv : validate_query db 1 corr (sanitize_query raw) = v)
    (hr : db.run v.result = .error e) :
    afterGenerate db corr synth now uq ch qh gp raw =
      ⟨classify_error e, qh,
        ⟨some gp, some raw, v.sent, some (v.result, .error e), none⟩⟩ := by
  simp only [afterGenerate]
  rw [hv, hr]

theorem afterGenerate_run_ok (db : DB) (corr : ValPrompt → Except PyErr Str)
    (synth : SynthPrompt → Except PyErr Str) (now uq : Str) (ch : List Str)
    (qh : List Attempt) (gp : GenPrompt) (raw : Str) (v : ValOut) (results : Str)
    (hv : validate_query db 1 corr (sanitize_query raw) = v)
    (hr : db.run v.result = .ok results) :
    afterGenerate db corr synth now uq ch qh gp raw =
      afterRun db synth now uq ch qh gp raw v results := by
  simp only [afterGenerate]
  rw [hv, hr]

theorem afterRun_synth_error (db : DB) (synth : SynthPrompt → Except PyErr Str)
    (now uq : Str) (ch : List Str) (qh : List Attempt) (gp : GenPrompt)
    (raw : Str) (v : ValOut) (results : Str) (e : PyErr)
    (hs : synth ⟨uq, ch, v.result, results,
      db.get_table_info (if v.sent.isSome then 2 else 1)⟩ = .error e) :
    afterRun db synth now uq ch qh gp raw v results =
      ⟨classify_error e, qh ++ [⟨now, uq, sanitize_query raw, v.result, results⟩],
        ⟨some gp, some raw, v.sent, some (v.result, .ok results),
          some ⟨uq, ch, v.result, results,
            db.get_table_info (if v.sent.isSome then 2 else 1)⟩⟩⟩ := by
  simp only [afterRun]
  rw [hs]

theorem afterRun_synth_ok (db : DB) (synth : SynthPrompt → Except PyErr Str)
    (now uq : Str) (ch : List Str) (qh : List Attempt) (gp : GenPrompt)
    (raw : Str) (v : ValOut) (results final : Str)
    (hs : synth ⟨uq, ch, v.result, results,
      db.get_table_info (if v.sent.isSome then 2 else 1)⟩ = .ok final) :
    afterRun db synth now uq ch qh gp raw v results =
      ⟨final, qh ++ [⟨now, uq, sanitize_query raw, v.result, results⟩],
        ⟨some gp, some raw, v.sent, some (v.result, .ok results),
          some ⟨uq, ch, v.result, results,
            db.get_table_info (if v.sent.isSome then 2 else 1)⟩⟩⟩ := by
  simp only [afterRun]
  rw [hs]

theorem afterRun_components (db : DB) (synth : SynthPrompt → Except PyErr Str)
    (now uq : Str) (ch : List Str) (qh : List Attempt) (gp : GenPrompt)
    (raw : Str) (v : ValOut) (results : Str) :
    (afterRun db synth now uq ch qh gp raw v results).trace.executed =
      some (v.result, .ok results) ∧
    (afterRun db synth now uq ch qh gp raw v results).query_history =
      qh ++ [⟨now, uq, sanitize_query raw, v.result, results⟩] ∧
    (afterRun db synth now uq ch qh gp raw v results).trace.valSent = v.sent ∧
    (afterRun db synth now uq ch qh gp raw v results).trace.synthPrompt =
      some ⟨uq, ch, v.result, results,
        db.get_table_info (if v.sent.isSome then 2 else 1)⟩ ∧
    (afterRun db synth now uq ch qh gp raw v results).trace.genPrompt = some gp := by
  simp only [afterRun]
  split
  · exact ⟨rfl, rfl, rfl, rfl, rfl⟩
  · exact ⟨rfl, rfl, rfl, rfl, rfl⟩

/- ### Observable behaviour of a turn -/

theorem executed_error_spec (db : DB) (gen : GenPrompt → Except PyErr Str)
    (corr : ValPrompt → Except PyErr Str) (synth : SynthPrompt → Except PyErr Str)
    (now uq : Str) (ch : List Str) (qh : List Attempt) :
    ∀ q e, (get_response db gen corr synth now uq ch qh).trace.executed = some (q, .error e) →
      (get_response db gen corr synth now uq ch qh).answer = classify_error e ∧
      (get_response db gen corr synth now uq ch qh).query_history = qh := by
  intro q e h
  cases hg : gen ⟨uq, db.get_table_info 0, ch⟩ with
  | error e0 =>
    rw [get_response_gen_error db gen corr synth now uq ch qh e0 hg] at h
    simp at h
  | ok raw =>
    rw [get_response_gen_ok db gen corr synth now uq ch qh raw hg] at h ⊢
    cases hr : db.run (validate_query db 1 corr (sanitize_query raw)).result with
    | error e0 =>
      rw [afterGenerate_run_error db corr synth now uq ch qh ⟨uq, db.get_table_info 0, ch⟩
        raw (validate_query db 1 corr (sanitize_query raw)) e0 rfl hr] at h ⊢
      simp only [Option.some.injEq, Prod.mk.injEq, Except.error.injEq] at h
      obtain ⟨h1, h2⟩ := h
      subst h2
      exact ⟨rfl, rfl⟩
    | ok results =>
      rw [afterGenerate_run_ok db corr synth now uq ch qh ⟨uq, db.get_table_info 0, ch⟩
        raw (validate_query db 1 corr (sanitize_query raw)) results rfl hr] at h
      rw [(afterRun_components db synth now uq ch qh ⟨uq, db.get_table_info 0, ch⟩
        raw (validate_query db 1 corr (sanitize_query raw)) results).1] at h
      simp at h

theorem executed_ok_spec (db : DB) (gen : GenPrompt → Except PyErr Str)
    (corr : ValPrompt → Except PyErr Str) (synth : SynthPrompt → Except PyErr Str)
    (now uq : Str) (ch : List Str) (qh : List Attempt) :
    ∀ q r, (get_response db gen corr synth now uq ch qh).trace.executed = some (q, .ok r) →
      ∃ a, (get_response db gen corr synth now uq ch qh).query_history = qh ++ [a] := by
  intro q r h
  cases hg : gen ⟨uq, db.get_table_info 0, ch⟩ with
  | error e0 =>
    rw [get_response_gen_error db gen corr synth now uq ch qh e0 hg] at h
    simp at h
  | ok raw =>
    rw [get_response_gen_ok db gen corr synth now uq ch qh raw hg] at h ⊢
    cases hr : db.run (validate_query db 1 corr (sanitize_query raw)).result with
    | error e0 =>
      rw [afterGenerate_run_error db corr synth now uq ch qh ⟨uq, db.get_table_info 0, ch⟩
        raw (validate_query db 1 corr (sanitize_query raw)) e0 rfl hr] at h
      simp at h
    | ok results =>
      rw [afterGenerate_run_ok db corr synth now uq ch qh ⟨uq, db.get_table_info 0, ch⟩
        raw (validate_query db 1 corr (sanitize_query raw)) results rfl hr]
      exact ⟨⟨now, uq, sanitize_query raw,
          (validate_query db 1 corr (sanitize_query raw)).result, results⟩,
        (afterRun_components db synth now uq ch qh ⟨uq, db.get_table_info 0, ch⟩
          raw (validate_query db 1 corr (sanitize_query raw)) results).2.1⟩

theorem executed_none_spec (db : DB) (gen : GenPrompt → Except PyErr Str)
    (corr : ValPrompt → Except PyErr Str) (synth : SynthPrompt → Except PyErr Str)
    (now uq : Str) (ch : List Str) (qh : List Attempt) :
    (get_response db gen corr synth now uq ch qh).trace.executed = none →
      (get_response db gen corr synth now uq ch qh).query_history = qh := by
  intro h
  cases hg : gen ⟨uq, db.get_table_info 0, ch⟩ with
  | error e0 =>
    rw [get_response_gen_error db gen corr synth now uq ch qh e0 hg]
  | ok raw =>
    rw [get_response_gen_ok db gen corr synth now uq ch qh raw hg] at h ⊢
    cases hr : db.run (validate_query db 1 corr (sanitize_query raw)).result with
    | error e0 =>
      rw [afterGenerate_run_error db corr synth now uq ch qh ⟨uq, db.get_table_info 0, ch⟩
        raw (validate_query db 1 corr (sanitize_query raw)) e0 rfl hr]
    | ok results =>
      rw [afterGenerate_run_ok db corr synth now uq ch qh ⟨uq, db.get_table_info 0, ch⟩
        raw (validate_query db 1 corr (sanitize_query raw)) results rfl hr] at h
      rw [(afterRun_components db synth now uq ch qh ⟨uq, db.get_table_info 0, ch⟩
        raw (validate_query db 1 corr (sanitize_query raw)) results).1] at h
      simp at h

theorem synth_error_spec (db : DB) (gen : GenPrompt → Except PyErr Str)
    (corr : ValPrompt → Except PyErr Str) (synth : SynthPrompt → Except PyErr Str)
    (now uq : Str) (ch : List Str) (qh : List Attempt) :
    ∀ sp e, (get_response db gen corr synth now uq ch qh).trace.synthPrompt = some sp →
      synth sp = .error e →
      (get_response db gen corr synth now uq ch qh).answer = classify_error e := by
  intro sp e hsp hse
  cases hg : gen ⟨uq, db.get_table_info 0, ch⟩ with
  | error e0 =>
    rw [get_response_gen_error db gen corr synth now uq ch qh e0 hg] at hsp
    simp at hsp
  | ok raw =>
    rw [get_response_gen_ok db gen corr synth now uq ch qh raw hg] at hsp ⊢
    cases hr : db.run (validate_query db 1 corr (sanitize_query raw)).result with
    | error e0 =>
      rw [afterGenerate_run_error db corr synth now uq ch qh ⟨uq, db.get_table_info 0, ch⟩
        raw (validate_query db 1 corr (sanitize_query raw)) e0 rfl hr] at hsp
      simp at hsp
    | ok results =>
      rw [afterGenerate_run_ok db corr synth now uq ch qh ⟨uq, db.get_table_info 0, ch⟩
        raw (validate_query db 1 corr (sanitize_query raw)) results rfl hr] at hsp ⊢
      rw [(afterRun_components db synth now uq ch qh ⟨uq, db.get_table_info 0, ch⟩
        raw (validate_query db 1 corr (sanitize_query raw)) results).2.2.2.1] at hsp
      have hsp2 := Option.some.inj hsp
      rw [← hsp2] at hse
      rw [afterRun_synth_error db synth now uq ch qh ⟨uq, db.get_table_info 0, ch⟩
        raw (validate_query db 1 corr (sanitize_query raw)) results e hse]

/- ### Claim C1: attempt logging on executor failure -/

/-- Claim C1, counterexample: with `db.run` raising a ProgrammingError, the
turn returns the syntax/engine-error message but the session attempt log is
left unchanged (it gains no entry), contradicting the claim that the failed
attempt is still recorded. -/
theorem c1_counterexample :
    (get_response ⟨fun _ => chars "S", fun _ => .error ⟨chars "ProgrammingError", chars "boom"⟩⟩
      (fun _ => .ok (chars "SELECT 1")) (fun _ => .ok (chars "SELECT 1"))
      (fun _ => .ok (chars "ans")) (chars "t0") (chars "how many") [] []).answer =
      chars "Database error: boom. Please verify your query syntax." ∧
    (get_response ⟨fun _ => chars "S", fun _ => .error ⟨chars "ProgrammingError", chars "boom"⟩⟩
      (fun _ => .ok (chars "SELECT 1")) (fun _ => .ok (chars "SELECT 1"))
      (fun _ => .ok (chars "ans")) (chars "t0") (chars "how many") [] []).query_history = [] := by
  constructor
  · rfl
  · rfl

/-- Claim C1 (amended): when the Executor (`db.run`) raises, `get_response`
returns the classified error message but the attempt log is unchanged — the
failed attempt is not recorded; the log gains exactly one entry precisely when
execution succeeds (even if synthesis later fails), and gains none when the
turn fails at generation or execution. -/
theorem c1_attempt_log (db : DB) (gen : GenPrompt → Except PyErr Str)
    (corr : ValPrompt → Except PyErr Str) (synth : SynthPrompt → Except PyErr Str)
    (now uq : Str) (ch : List Str) (qh : List Attempt) :
    (∀ q e, (get_response db gen corr synth now uq ch qh).trace.executed = some (q, .error e) →
      (get_response db gen corr synth now uq ch qh).answer = classify_error e ∧
      (get_response db gen corr synth now uq ch qh).query_history = qh) ∧
    (∀ q r, (get_response db gen corr synth now uq ch qh).trace.executed = some (q, .ok r) →
      ∃ a, (get_response db gen corr synth now uq ch qh).query_history = qh ++ [a]) ∧
    ((get_response db gen corr synth now uq ch qh).trace.executed = none →
      (get_response db gen corr synth now uq ch qh).query_history = qh) :=
  ⟨executed_error_spec db gen corr synth now uq ch qh,
   executed_ok_spec db gen corr synth now uq ch qh,
   executed_none_spec db gen corr synth now uq ch qh⟩

/-- Claim C1, witness: a fully successful concrete turn appends exactly one
entry to an initially empty log. -/
theorem c1_witness :
    ∃ a, (get_response ⟨fun _ => chars "S", fun _ => .ok (chars "r")⟩
      (fun _ => .ok (chars "SELECT 1")) (fun _ => .ok (chars "SELECT 1"))
      (fun _ => .ok (chars "ans")) (chars "t0") (chars "how many") [] []).query_history =
      [] ++ [a] :=
  (c1_attempt_log ⟨fun _ => chars "S", fun _ => .ok (chars "r")⟩
    (fun _ => .ok (chars "SELECT 1")) (fun _ => .ok (chars "SELECT 1"))
    (fun _ => .ok (chars "ans")) (chars "t0") (chars "how many") [] []).2.1
    (chars "SELECT 1") (chars "r") rfl

/- ### Claim C2: what reaches the executor -/

/-- Claim C2, counterexample: a generated statement without an accepted verb
(a DROP) is passed to `db.run` unchanged — the whitelist check gates only the
correction stage, it never blocks execution. -/
theorem c2_counterexample :
    (get_response ⟨fun _ => chars "S", fun _ => .ok (chars "ran")⟩
      (fun _ => .ok (chars "DROP TABLE students")) (fun _ => .ok (chars "x"))
      (fun _ => .ok (chars "ans")) (chars "t0") (chars "q") [] []).trace.executed =
      some (chars "DROP TABLE students", Except.ok (chars "ran")) ∧
    startsWithAccepted (chars "DROP TABLE students") = false := by
  constructor
  · rfl
  · decide

/-- Claim C2 (amended): the query given to `db.run` is exactly
`validate_query` applied to the sanitized generation output — so the sanitizer
runs before validation — but the accepted-verb check only gates whether the
correction chain is consulted: a candidate without an accepted verb is passed
to the executor unchanged rather than rejected. -/
theorem c2_executed_query (db : DB) (gen : GenPrompt → Except PyErr Str)
    (corr : ValPrompt → Except PyErr Str) (synth : SynthPrompt → Except PyErr Str)
    (now uq : Str) (ch : List Str) (qh : List Attempt) (raw : Str)
    (hg : gen ⟨uq, db.get_table_info 0, ch⟩ = .ok raw) :
    ((get_response db gen corr synth now uq ch qh).trace.executed =
      some ((validate_query db 1 corr (sanitize_query raw)).result,
        db.run (validate_query db 1 corr (sanitize_query raw)).result)) ∧
    (startsWithAccepted (sanitize_query raw) = false →
      (validate_query db 1 corr (sanitize_query raw)).result = sanitize_query raw) := by
  constructor
  · rw [get_response_gen_ok db gen corr synth now uq ch qh raw hg]
    cases hr : db.run (validate_query db 1 corr (sanitize_query raw)).result with
    | error e =>
      rw [afterGenerate_run_error db corr synth now uq ch qh ⟨uq, db.get_table_info 0, ch⟩
        raw (validate_query db 1 corr (sanitize_query raw)) e rfl hr]
    | ok results =>
      rw [afterGenerate_run_ok db corr synth now uq ch qh ⟨uq, db.get_table_info 0, ch⟩
        raw (validate_query db 1 corr (sanitize_query raw)) results rfl hr]
      exact (afterRun_components db synth now uq ch qh ⟨uq, db.get_table_info 0, ch⟩
        raw (validate_query db 1 corr (sanitize_query raw)) results).1
  · intro h
    rw [validate_query_no_verb db 1 corr (sanitize_query raw) h]

/-- Claim C2, witness: a concrete turn whose fenced generation output is
sanitized and then executed. -/
theorem c2_witness :
    (get_response ⟨fun _ => chars "S", fun _ => .ok (chars "ran")⟩
      (fun _ => .ok (chars "```sql SELECT 1 ```")) (fun _ => .ok (chars "SELECT 1"))
      (fun _ => .ok (chars "ans")) (chars "t0") (chars "q") [] []).trace.executed =
      some ((validate_query ⟨fun _ => chars "S", fun _ => .ok (chars "ran")⟩ 1
          (fun _ => .ok (chars "SELECT 1"))
          (sanitize_query (chars "```sql SELECT 1 ```"))).result,
        Except.ok (chars "ran")) :=
  (c2_executed_query ⟨fun _ => chars "S", fun _ => .ok (chars "ran")⟩
    (fun _ => .ok (chars "```sql SELECT 1 ```")) (fun _ => .ok (chars "SELECT 1"))
    (fun _ => .ok (chars "ans")) (chars "t0") (chars "q") [] []
    (chars "```sql SELECT 1 ```") rfl).1

/- ### Claim C8: the error classifier -/

/-- Claim C8, counterexample: two turns failing in the same query-execution
category (ProgrammingError) but with different engine messages produce
different user-facing texts, so the returned text is not a fixed message
determined solely by the failure category. -/
theorem c8_counterexample :
    (get_response ⟨fun _ => chars "S", fun _ => .error ⟨chars "ProgrammingError", chars "A"⟩⟩
      (fun _ => .ok (chars "SELECT 1")) (fun _ => .ok (chars "SELECT 1"))
      (fun _ => .ok (chars "ans")) (chars "t") (chars "q") [] []).answer ≠
    (get_response ⟨fun _ => chars "S", fun _ => .error ⟨chars "ProgrammingError", chars "B"⟩⟩
      (fun _ => .ok (chars "SELECT 1")) (fun _ => .ok (chars "SELECT 1"))
      (fun _ => .ok (chars "ans")) (chars "t") (chars "q") [] []).answer := by
  decide

/-- Claim C8 (amended): `get_response` catches every stage failure and answers
with the classifier's message for it (generation failure, execution failure,
synthesis failure), so a turn always ends with some text; the connectivity,
empty-result and generic categories map to fixed texts independent of the
failure detail, but the query-execution (ProgrammingError) category embeds the
engine message `str(e)` in the text, so that message varies with the detail. -/
theorem c8_error_classification :
    (∀ e : PyErr, containsSub e.typeName (chars "ProgrammingError") = true →
      classify_error e =
        chars "Database error: " ++ e.msg ++ chars ". Please verify your query syntax.") ∧
    (∀ e : PyErr, containsSub e.typeName (chars "ProgrammingError") = false →
      containsSub e.typeName (chars "ConnectionError") = true →
      classify_error e =
        chars "Failed to connect to database. Please check your connection settings.") ∧
    (∀ e : PyErr, containsSub e.typeName (chars "ProgrammingError") = false →
      containsSub e.typeName (chars "ConnectionError") = false →
      containsSub e.msg (chars "EmptyResult") = true →
      classify_error e = chars "No results found matching your criteria.") ∧
    (∀ e : PyErr, containsSub e.typeName (chars "ProgrammingError") = false →
      containsSub e.typeName (chars "ConnectionError") = false →
      containsSub e.msg (chars "EmptyResult") = false →
      classify_error e =
        chars "Sorry, I encountered an unexpected error. The technical details have been logged.") ∧
    (∀ (db : DB) (gen : GenPrompt → Except PyErr Str) (corr : ValPrompt → Except PyErr Str)
      (synth : SynthPrompt → Except PyErr Str) (now uq : Str) (ch : List Str)
      (qh : List Attempt) (e : PyErr),
      gen ⟨uq, db.get_table_info 0, ch⟩ = .error e →
      (get_response db gen corr synth now uq ch qh).answer = classify_error e) ∧
    (∀ (db : DB) (gen : GenPrompt → Except PyErr Str) (corr : ValPrompt → Except PyErr Str)
      (synth : SynthPrompt → Except PyErr Str) (now uq : Str) (ch : List Str)
      (qh : List Attempt) (q : Str) (e : PyErr),
      (get_response db gen corr synth now uq ch qh).trace.executed = some (q, .error e) →
      (get_response db gen corr synth now uq ch qh).answer = classify_error e) ∧
    (∀ (db : DB) (gen : GenPrompt → Except PyErr Str) (corr : ValPrompt → Except PyErr Str)
      (synth : SynthPrompt → Except PyErr Str) (now uq : Str) (ch : List Str)
      (qh : List Attempt) (sp : SynthPrompt) (e : PyErr),
      (get_response db gen corr synth now uq ch qh).trace.synthPrompt = some sp →
      synth sp = .error e →
      (get_response db gen corr synth now uq ch qh).answer = classify_error e) := by
  refine ⟨?_, ?_, ?_, ?_, ?_, ?_, ?_⟩
  · intro e h
    unfold classify_error
    rw [h]
    simp
  · intro e h1 h2
    unfold classify_error
    rw [h1, h2]
    simp
  · intro e h1 h2 h3
    unfold classify_error
    rw [h1, h2, h3]
    simp
  · intro e h1 h2 h3
    unfold classify_error
    rw [h1, h2, h3]
    simp
  · intro db gen corr synth now uq ch qh e hg
    rw [get_response_gen_error db gen corr synth now uq ch qh e hg]
  · intro db gen corr synth now uq ch qh q e h
    exact (executed_error_spec db gen corr synth now uq ch qh q e h).1
  · intro db gen corr synth now uq ch qh sp e hsp hse
    exact synth_error_spec db gen corr synth now uq ch qh sp e hsp hse

/-- Claim C8, witness: a connectivity-category failure gets the fixed
reconnect message. -/
theorem c8_witness :
    classify_error ⟨chars "OperationalConnectionError", chars "refused"⟩ =
      chars "Failed to connect to database. Please check your connection settings." :=
  c8_error_classification.2.1 ⟨chars "OperationalConnectionError", chars "refused"⟩
    (by decide) (by decide)

/- ### Claim C9: schema snapshots -/

/-- Claim C9, counterexample: with a schema provider whose text changes
between fetches, the generation prompt and the validation prompt of the same
turn carry different schema texts — the code fetches the schema at each use
site instead of taking one snapshot per turn. -/
theorem c9_counterexample :
    ((get_response ⟨fun n => if n = 0 then chars "A" else chars "B", fun _ => .ok (chars "r")⟩
      (fun _ => .ok (chars "SELECT 1")) (fun _ => .ok (chars "SELECT 1"))
      (fun _ => .ok (chars "ans")) (chars "t") (chars "q") [] []).trace.genPrompt.map
        GenPrompt.schema = some (chars "A")) ∧
    ((get_response ⟨fun n => if n = 0 then chars "A" else chars "B", fun _ => .ok (chars "r")⟩
      (fun _ => .ok (chars "SELECT 1")) (fun _ => .ok (chars "SELECT 1"))
      (fun _ => .ok (chars "ans")) (chars "t") (chars "q") [] []).trace.valSent.map
        ValPrompt.schema = some (chars "B")) ∧
    chars "A" ≠ chars "B" := by
  refine ⟨rfl, rfl, by decide⟩

/-- Claim C9 (amended): each prompt of a turn fetches the schema at its own
point of use — the generation prompt uses fetch 0, the validation prompt (when
sent) fetch 1, and the synthesis prompt fetch 2 when validation fetched and
fetch 1 otherwise; the three schema texts therefore coincide exactly when the
provider returns the same text on every fetch of the turn, and can differ
otherwise. -/
theorem c9_schema_fetch_points (db : DB) (gen : GenPrompt → Except PyErr Str)
    (corr : ValPrompt → Except PyErr Str) (synth : SynthPrompt → Except PyErr Str)
    (now uq : Str) (ch : List Str) (qh : List Attempt) :
    ((get_response db gen corr synth now uq ch qh).trace.genPrompt =
      some ⟨uq, db.get_table_info 0, ch⟩) ∧
    (∀ vp, (get_response db gen corr synth now uq ch qh).trace.valSent = some vp →
      vp.schema = db.get_table_info 1) ∧
    (∀ sp, (get_response db gen corr synth now uq ch qh).trace.synthPrompt = some sp →
      sp.schema = db.get_table_info
        (if (get_response db gen corr synth now uq ch qh).trace.valSent.isSome then 2 else 1)) ∧
    ((∀ n, db.get_table_info n = db.get_table_info 0) →
      (∀ vp, (get_response db gen corr synth now uq ch qh).trace.valSent = some vp →
        vp.schema = db.get_table_info 0) ∧
      (∀ sp, (get_response db gen corr synth now uq ch qh).trace.synthPrompt = some sp →
        sp.schema = db.get_table_info 0)) := by
  have h123 : ((get_response db gen corr synth now uq ch qh).trace.genPrompt =
      some ⟨uq, db.get_table_info 0, ch⟩) ∧
      (∀ vp, (get_response db gen corr synth now uq ch qh).trace.valSent = some vp →
        vp.schema = db.get_table_info 1) ∧
      (∀ sp, (get_response db gen corr synth now uq ch qh).trace.synthPrompt = some sp →
        sp.schema = db.get_table_info
          (if (get_response db gen corr synth now uq ch qh).trace.valSent.isSome
            then 2 else 1)) := by
    cases hg : gen ⟨uq, db.get_table_info 0, ch⟩ with
    | error e =>
      rw [get_response_gen_error db gen corr synth now uq ch qh e hg]
      refine ⟨rfl, ?_, ?_⟩
      · intro vp h
        simp at h
      · intro sp h
        simp at h
    | ok raw =>
      rw [get_response_gen_ok db gen corr synth now uq ch qh raw hg]
      cases hr : db.run (validate_query db 1 corr (sanitize_query raw)).result with
      | error e =>
        rw [afterGenerate_run_error db corr synth now uq ch qh ⟨uq, db.get_table_info 0, ch⟩
          raw (validate_query db 1 corr (sanitize_query raw)) e rfl hr]
        refine ⟨rfl, ?_, ?_⟩
        · intro vp h
          rcases validate_query_sent_shape db 1 corr (sanitize_query raw) with hs | hs
          · rw [hs] at h
            simp at h
          · rw [hs] at h
            have h2 := Option.some.inj h
            rw [← h2]
        · intro sp h
          simp at h
      | ok results =>
        rw [afterGenerate_run_ok db corr synth now uq ch qh ⟨uq, db.get_table_info 0, ch⟩
          raw (validate_query db 1 corr (sanitize_query raw)) results rfl hr]
        have hcomp := afterRun_components db synth now uq ch qh ⟨uq, db.get_table_info 0, ch⟩
          raw (validate_query db 1 corr (sanitize_query raw)) results
        refine ⟨hcomp.2.2.2.2, ?_, ?_⟩
        · intro vp h
          rw [hcomp.2.2.1] at h
          rcases validate_query_sent_shape db 1 corr (sanitize_query raw) with hs | hs
          · rw [hs] at h
            simp at h
          · rw [hs] at h
            have h2 := Option.some.inj h
            rw [← h2]
        · intro sp h
          rw [hcomp.2.2.2.1] at h
          have h2 := Option.some.inj h
          rw [← h2, hcomp.2.2.1]
  exact ⟨h123.1, h123.2.1, h123.2.2, fun hc =>
    ⟨fun vp hvp => (h123.2.1 vp hvp).trans (hc 1),
     fun sp hsp => (h123.2.2 sp hsp).trans (hc _)⟩⟩

/-- Claim C9, witness: with a constant schema provider the validation and
synthesis prompts of a concrete successful turn carry the turn's schema
text. -/
theorem c9_witness :
    (⟨chars "S", chars "SELECT 1"⟩ : ValPrompt).schema = chars "S" ∧
    (⟨chars "q", [], chars "SELECT 1", chars "r", chars "S"⟩ : SynthPrompt).schema =
      chars "S" := by
  have h := (c9_schema_fetch_points ⟨fun _ => chars "S", fun _ => .ok (chars "r")⟩
    (fun _ => .ok (chars "SELECT 1")) (fun _ => .ok (chars "SELECT 1"))
    (fun _ => .ok (chars "ans")) (chars "t") (chars "q") [] []).2.2.2 (fun _ => rfl)
  exact ⟨h.1 ⟨chars "S", chars "SELECT 1"⟩ rfl,
    h.2 ⟨chars "q", [], chars "SELECT 1", chars "r", chars "S"⟩ rfl⟩
